import Mathlib

/-!
Verification development for the document-access tracking service
(`tracker` Django application).  The Python source is shallowly embedded:

* `parse_user_agent`, `get_client_ip` (tracker/utils/fingerprint.py)
* `Document`, `AccessLog` (tracker/models.py), with the database modelled
  as explicit lists of rows
* `log_access`, `log_telemetry` (tracker/utils/logging.py)
* `create_document`, `beacon` (tracker/views/api.py)
* the decoy endpoints (tracker/views/{assets,fonts,health,config,telemetry}.py)
* the dashboard aggregations (tracker/views/dashboard.py)

Each concrete Python regular expression used by the source is embedded as a
dedicated search function implementing `re.search` semantics for exactly that
pattern.  Django querysets become list operations; `timezone.now` based
timestamps are not modelled (no verified property mentions them).
-/

namespace Tracker

/-! ## Character classes (Python `re` semantics, ASCII) -/

/-- Python `\s` whitespace class. -/
def isWs (c : Char) : Bool :=
  c = ' ' || c = '\t' || c = '\n' || c = '\r' || c = '\x0b' || c = '\x0c'

/-- Python `\w` word-character class (ASCII fragment). -/
def isWordCh (c : Char) : Bool :=
  c.isAlphanum || c = '_'

/-- The class `[\d.]` (digits and dots). -/
def isDigitDot (c : Char) : Bool :=
  c.isDigit || c = '.'

/-- The class `[\d_]` (digits and underscores). -/
def isDigitUnderscore (c : Char) : Bool :=
  c.isDigit || c = '_'

/-- The class `[/\s]` (slash or whitespace). -/
def isSlashWs (c : Char) : Bool :=
  c = '/' || isWs c

/-- The class `[\w\s]` (word character or whitespace). -/
def isWordWs (c : Char) : Bool :=
  isWordCh c || isWs c

/-! ## Literal matching and substring search -/

/-- Case-insensitive character comparison (for `re.I`). -/
def chEqCI (a b : Char) : Bool := a.toLower = b.toLower

/-- Match a literal at the head of `s`, case-insensitively; return the rest. -/
def matchLitCI : List Char → List Char → Option (List Char)
  | [], s => some s
  | _ :: _, [] => none
  | l :: ls, c :: cs => if chEqCI l c then matchLitCI ls cs else none

/-- Match a literal at the head of `s`, case-sensitively; return the rest. -/
def matchLitCS : List Char → List Char → Option (List Char)
  | [], s => some s
  | _ :: _, [] => none
  | l :: ls, c :: cs => if l = c then matchLitCS ls cs else none

/-- `lit in s` (Python substring test, case-sensitive). -/
def containsCS (lit : List Char) : List Char → Bool
  | [] => (matchLitCS lit []).isSome
  | c :: t => (matchLitCS lit (c :: t)).isSome || containsCS lit t

/-- Case-insensitive substring test. -/
def containsCI (lit : List Char) : List Char → Bool
  | [] => (matchLitCI lit []).isSome
  | c :: t => (matchLitCI lit (c :: t)).isSome || containsCI lit t

/-! ## The concrete regex searches used by `parse_user_agent` -/

/-- After the token of `re.search(r'TOKEN[/\s]*([\d.]+)?', ua, re.I)`:
greedily skip `[/\s]*`, then capture `([\d.]+)?` if non-empty. -/
def capSlashDigits (rest : List Char) : Option String :=
  let ds := (rest.dropWhile isSlashWs).takeWhile isDigitDot
  if ds.isEmpty then none else some (String.mk ds)

/-- `re.search(r'LIT[/\s]*([\d.]+)?', s, re.I)` for a literal `LIT`:
`some g` at the leftmost case-insensitive occurrence of the literal
(the whole pattern matches iff the literal occurs), `none` otherwise. -/
def searchTokenVer (lit : List Char) : List Char → Option (Option String)
  | [] => match matchLitCI lit [] with
    | some rest => some (capSlashDigits rest)
    | none => none
  | c :: t => match matchLitCI lit (c :: t) with
    | some rest => some (capSlashDigits rest)
    | none => searchTokenVer lit t

/-- `re.search(r'LIT(CLS+)', s)` (case-sensitive, required capture):
the capture group at the leftmost position where the literal is followed
by at least one `CLS` character. -/
def searchLitCap (lit : List Char) (cls : Char → Bool) : List Char → Option String
  | [] => none
  | c :: t => match matchLitCS lit (c :: t) with
    | some rest =>
      let ds := rest.takeWhile cls
      if ds.isEmpty then searchLitCap lit cls t else some (String.mk ds)
    | none => searchLitCap lit cls t

/-- Tail of `re.search(r'Microsoft Office\s+([\w\s]+)', ua, re.I)` after the
literal: greedy `\s+` followed by the greedy capture `([\w\s]+)`, with the
usual one-character backtracking when no word character follows the
whitespace run. -/
def matchOfficeTail (rest : List Char) : Option String :=
  let w := rest.takeWhile isWs
  let after := rest.drop w.length
  if w.length = 0 then none
  else match after with
    | a :: _ =>
      if isWordCh a then some (String.mk (after.takeWhile isWordWs))
      else if 2 ≤ w.length then
        match w.getLast? with
        | some c => some (String.mk [c])
        | none => none
      else none
    | [] =>
      if 2 ≤ w.length then
        match w.getLast? with
        | some c => some (String.mk [c])
        | none => none
      else none

/-- `re.search(r'Microsoft Office\s+([\w\s]+)', ua, re.I)`:
capture group at the leftmost full match. -/
def searchOffice : List Char → Option String
  | [] => none
  | c :: t => match matchLitCI ("Microsoft Office".data) (c :: t) with
    | some rest => match matchOfficeTail rest with
      | some g => some g
      | none => searchOffice t
    | none => searchOffice t

/-- `.replace('_', '.')`. -/
def underscoresToDots (s : String) : String :=
  String.mk (s.data.map (fun c => if c = '_' then '.' else c))

/-! ## `parse_user_agent` (tracker/utils/fingerprint.py) -/

/-- The result dictionary of `parse_user_agent`. -/
structure UAResult where
  os_name : String
  os_version : String
  browser_name : String
  browser_version : String
  client_app : String
  client_build : String
deriving DecidableEq, Repr

/-- The all-empty result. -/
def emptyUAResult : UAResult := ⟨"", "", "", "", "", ""⟩

/-- Shallow embedding of `parse_user_agent`.  The three client-application
regexes are applied in source order, each successful search overwriting
`client_app` (and `client_build` when its group captured); OS detection is an
ordered chain of substring tests; browser detection runs only when no
client application was detected. -/
def parse_user_agent (ua : String) : UAResult :=
  if ua = "" then emptyUAResult
  else
    let s := ua.data
    -- Detect Office applications
    let (app1, build1) : String × String :=
      match searchOffice s with
      | some g => ("Microsoft Office " ++ g, "")
      | none => ("", "")
    let (app2, build2) : String × String :=
      match searchTokenVer ("Word".data) s with
      | some og => ("Microsoft Word", og.getD build1)
      | none => (app1, build1)
    let (app3, build3) : String × String :=
      match searchTokenVer ("Excel".data) s with
      | some og => ("Microsoft Excel", og.getD build2)
      | none => (app2, build2)
    -- Detect OS
    let (osn, osv) : String × String :=
      if containsCS ("Windows NT 10".data) s then ("Windows", "10/11")
      else if containsCS ("Windows NT 6.3".data) s then ("Windows", "8.1")
      else if containsCS ("Windows NT 6.1".data) s then ("Windows", "7")
      else if containsCS ("Mac OS X".data) s then
        ("macOS", ((searchLitCap ("Mac OS X ".data) isDigitUnderscore s).map
          underscoresToDots).getD "")
      else if containsCS ("Linux".data) s then ("Linux", "")
      else if containsCS ("Android".data) s then
        ("Android", (searchLitCap ("Android ".data) isDigitDot s).getD "")
      else if containsCS ("iPhone".data) s || containsCS ("iPad".data) s then
        ("iOS", ((searchLitCap ("OS ".data) isDigitUnderscore s).map
          underscoresToDots).getD "")
      else ("", "")
    -- Detect browsers (if not Office)
    let (bn, bv) : String × String :=
      if app3 = "" then
        if containsCS ("Chrome".data) s && !containsCS ("Edg".data) s then
          ("Chrome", (searchLitCap ("Chrome/".data) isDigitDot s).getD "")
        else if containsCS ("Edg".data) s then
          ("Edge", (searchLitCap ("Edg/".data) isDigitDot s).getD "")
        else if containsCS ("Firefox".data) s then
          ("Firefox", (searchLitCap ("Firefox/".data) isDigitDot s).getD "")
        else if containsCS ("Safari".data) s then
          ("Safari", (searchLitCap ("Version/".data) isDigitDot s).getD "")
        else ("", "")
      else ("", "")
    ⟨osn, osv, bn, bv, app3, build3⟩

/-! ## Data model (tracker/models.py) -/

/-- A `Document` row: tracked document keyed by its unique `cid`. -/
structure Document where
  id : Nat
  cid : String
  name : String
  file_path : String
deriving DecidableEq, Repr

/-- An `AccessLog` row.  Timestamps and the geo fields never written by the
core (`asn`, `city`, proxy flags, ...) other than `country`/`isp` are not
modelled; `country` and `isp` are kept because the dashboard aggregates
them (they default to empty at creation). -/
structure AccessLog where
  id : Nat
  document : Option Nat
  cid : String
  ip_address : Option String
  isp : String
  country : String
  user_agent : String
  accept_headers : String
  accept_language : String
  os_name : String
  os_version : String
  browser_name : String
  browser_version : String
  client_app : String
  client_build : String
  endpoint : String
  method : String
  query_params : List (String × String)
  request_body : List (String × String)
  is_first_access : Bool
deriving DecidableEq, Repr, Inhabited

/-- The two tables, with the next auto-assigned primary keys. -/
structure DB where
  documents : List Document
  logs : List AccessLog
  next_doc_id : Nat
  next_log_id : Nat
deriving DecidableEq, Repr

/-- The empty database. -/
def emptyDB : DB := ⟨[], [], 0, 0⟩

/-- `Document.objects.get_or_create(cid=cid)`
(`Document.get_or_create_by_cid`). -/
def get_or_create_by_cid (db : DB) (cid : String) : Document × DB :=
  match db.documents.find? (fun d => d.cid == cid) with
  | some d => (d, db)
  | none =>
    let d : Document := ⟨db.next_doc_id, cid, "", ""⟩
    (d, { db with documents := db.documents ++ [d],
                  next_doc_id := db.next_doc_id + 1 })

/-- `Document.objects.filter(cid=cid).exists()`. -/
def docExists (db : DB) (cid : String) : Bool :=
  db.documents.any (fun d => d.cid == cid)

/-! ## Requests (the parts of a Django `HttpRequest` the code reads) -/

/-- The request body as the telemetry views decode it with
`json.loads(request.body) if request.body else {}` under an
`except json.JSONDecodeError` handler: `missing` covers an empty body and
unparseable JSON (both yield the empty dict), `obj` a JSON object, and
`nonObj` any other valid JSON value (list, string, number, null) — a value
that parses fine but has no `.get`, so `log_telemetry` raises
`AttributeError` on it. -/
inductive BodyJson where
  | missing
  | obj (fields : List (String × String))
  | nonObj
deriving DecidableEq, Repr

/-- A decoded inbound request.  `GET`/`POST` are the query/form parameter
dictionaries; the `http_*` fields are the `request.META` headers
(`none` = header absent); `body_json` is the decoded JSON body. -/
structure Request where
  method : String
  GET : List (String × String)
  POST : List (String × String)
  http_user_agent : String
  http_accept : String
  http_accept_language : String
  http_x_forwarded_for : Option String
  http_x_real_ip : Option String
  remote_addr : Option String
  body_json : BodyJson
deriving DecidableEq, Repr

/-- `dict` lookup: first binding of `k`. -/
def qlookup (qp : List (String × String)) (k : String) : Option String :=
  (qp.find? (fun p => p.1 == k)).map (fun p => p.2)

/-- `dict.get(k, default)`. -/
def qget (qp : List (String × String)) (k : String) (dflt : String) : String :=
  (qlookup qp k).getD dflt

/-- Python truthiness of an optional string (`None` and `''` are falsy). -/
def pyGetTruthy : Option String → Option String
  | some s => if s = "" then none else some s
  | none => none

/-- `s.split(',')[0]`. -/
def firstCommaEntry (s : String) : String :=
  String.mk (s.data.takeWhile (fun c => c ≠ ','))

/-- `get_client_ip` (tracker/utils/fingerprint.py): prefer the first
`X-Forwarded-For` entry (trimmed), else `X-Real-IP`, else `REMOTE_ADDR`. -/
def get_client_ip (req : Request) : Option String :=
  match pyGetTruthy req.http_x_forwarded_for with
  | some s => some ((firstCommaEntry s).trim)
  | none =>
    match pyGetTruthy req.http_x_real_ip with
    | some s => some s
    | none => req.remote_addr

/-! ## Ingestion pipeline (tracker/utils/logging.py) -/

/-- Effective cid of `log_access`: the `cid` argument when truthy, else
`query_params.get('cid', query_params.get('c', ''))`. -/
def effective_cid (cid : Option String) (qp : List (String × String)) : String :=
  let c0 := cid.getD ""
  if c0 = "" then qget qp "cid" (qget qp "c" "") else c0

/-- Database state after the `Document.get_or_create_by_cid` step of
`log_access` (unchanged when the effective cid is empty). -/
def log_access_db1 (db : DB) (c : String) : DB :=
  if c = "" then db else (get_or_create_by_cid db c).2

/-- The `document` foreign key chosen by `log_access`. -/
def log_access_docRef (db : DB) (c : String) : Option Nat :=
  if c = "" then none else some (get_or_create_by_cid db c).1.id

/-- The `is_first_access` value chosen by `log_access`:
`not document.access_logs.exists()` when a document was resolved. -/
def log_access_first (db : DB) (c : String) : Bool :=
  if c = "" then false
  else !((get_or_create_by_cid db c).2.logs.any
    (fun e => e.document == some (get_or_create_by_cid db c).1.id))

/-- `log_access(request, endpoint, cid=None, request_body=None)`:
extract metadata, resolve the effective cid, get-or-create the `Document`,
compute `is_first_access` (no existing `AccessLog` rows FK-linked to the
document), and append the new row. -/
def log_access (db : DB) (req : Request) (endpoint : String)
    (cid : Option String) (request_body : Option (List (String × String))) :
    AccessLog × DB :=
  let ua := req.http_user_agent
  let uaData := parse_user_agent ua
  let qp := req.GET
  let c := effective_cid cid qp
  let docRef := log_access_docRef db c
  let first := log_access_first db c
  let db1 := log_access_db1 db c
  let e : AccessLog :=
    { id := db1.next_log_id
      document := docRef
      cid := c
      ip_address := get_client_ip req
      isp := ""
      country := ""
      user_agent := ua
      accept_headers := req.http_accept
      accept_language := req.http_accept_language
      os_name := uaData.os_name
      os_version := uaData.os_version
      browser_name := uaData.browser_name
      browser_version := uaData.browser_version
      client_app := uaData.client_app
      client_build := uaData.client_build
      endpoint := endpoint
      method := req.method
      query_params := qp
      request_body := request_body.getD []
      is_first_access := first }
  (e, { db1 with logs := db1.logs ++ [e], next_log_id := db1.next_log_id + 1 })

/-- `log_telemetry(request, endpoint, payload)`: run `log_access`, then copy
`payload['client']`/`payload['build']` into `client_app`/`client_build`
only when truthy and the field on the fresh row is empty, and save the row. -/
def log_telemetry (db : DB) (req : Request) (endpoint : String)
    (payload : List (String × String)) : AccessLog × DB :=
  let client_app := qget payload "client" ""
  let client_build := qget payload "build" ""
  let e := (log_access db req endpoint none (some payload)).1
  let db1 := (log_access db req endpoint none (some payload)).2
  let e1 := if client_app ≠ "" ∧ e.client_app = ""
            then { e with client_app := client_app } else e
  let e2 := if client_build ≠ "" ∧ e1.client_build = ""
            then { e1 with client_build := client_build } else e1
  (e2, { db1 with logs := db1.logs.map (fun x => if x.id == e.id then e2 else x) })

/-! ## Ingestion call sequences -/

/-- One ingestion call: either a plain `log_access` call or a
`log_telemetry` call. -/
inductive Call where
  | access (req : Request) (endpoint : String) (cid : Option String)
      (body : Option (List (String × String)))
  | telemetry (req : Request) (endpoint : String)
      (payload : List (String × String))
deriving DecidableEq, Repr

/-- Database effect of one ingestion call. -/
def step (db : DB) : Call → DB
  | .access req ep cid body => (log_access db req ep cid body).2
  | .telemetry req ep payload => (log_telemetry db req ep payload).2

/-- Run a sequence of ingestion calls from the empty database. -/
def runCalls (calls : List Call) : DB :=
  calls.foldl step emptyDB

/-! ## Registration and beacon API (tracker/views/api.py) -/

/-- One JSON registration object: `uuid` (`none` when the key is absent),
and the `file_path`/`document_name` values after their `.get(..., '')`. -/
structure RegItem where
  uuid : Option String
  file_path : String
  document_name : String
deriving DecidableEq, Repr

/-- Decoded body of a registration request: a single object, a list of
objects, or unparseable JSON. -/
inductive RegData where
  | obj (item : RegItem)
  | arr (items : List RegItem)
  | invalid
deriving DecidableEq, Repr

/-- JSON responses produced by the API views. -/
inductive ApiResp where
  | okIds (ids : List String)
  | okSingle (id : String)
  | okStatus
  | err (status : Nat) (msg : String)
deriving DecidableEq, Repr

/-- `item.get('uuid')` followed by the `if not resource_id: continue`
truthiness test: `some u` exactly when the item is accepted. -/
def truthyUuid (i : RegItem) : Option String :=
  match i.uuid with
  | some u => if u = "" then none else some u
  | none => none

/-- `Document.objects.update_or_create(cid=..., defaults={name, file_path})`. -/
def update_or_create (db : DB) (cid name fp : String) : Document × DB :=
  match db.documents.find? (fun d => d.cid == cid) with
  | some d =>
    let d' := { d with name := name, file_path := fp }
    (d', { db with documents :=
            db.documents.map (fun x => if x.id == d.id then d' else x) })
  | none =>
    let d : Document := ⟨db.next_doc_id, cid, name, fp⟩
    (d, { db with documents := db.documents ++ [d],
                  next_doc_id := db.next_doc_id + 1 })

/-- Body of the registration loop: skip items with falsy `uuid`, upsert the
rest and collect `doc.cid`. -/
def regStep (acc : List String × DB) (item : RegItem) : List String × DB :=
  match truthyUuid item with
  | none => acc
  | some u =>
    let (d, db2) := update_or_create acc.2 u item.document_name item.file_path
    (acc.1 ++ [d.cid], db2)

/-- `create_document` (tracker/views/api.py): normalize to a list, process
each item (skipping those without a truthy `uuid`), report an error when a
non-empty batch produced no accepted ids, and answer with the single id for
a one-object non-list payload. -/
def create_document (db : DB) (data : RegData) : ApiResp × DB :=
  match data with
  | .invalid => (.err 400 "Invalid JSON", db)
  | .obj i =>
    -- a single object is wrapped into a one-element list, and answered with
    -- the single id when exactly one item was accepted
    let pr := [i].foldl regStep ([], db)
    if pr.1 = [] ∧ ([i] : List RegItem) ≠ [] then
      (.err 400 "uuid is required for at least one item", pr.2)
    else
      match pr.1 with
      | [p] => (.okSingle p, pr.2)
      | _ => (.okIds pr.1, pr.2)
  | .arr items =>
    let pr := items.foldl regStep ([], db)
    if pr.1 = [] ∧ items ≠ [] then
      (.err 400 "uuid is required for at least one item", pr.2)
    else (.okIds pr.1, pr.2)

/-- The parameter list of `log_access` as defined in
tracker/utils/logging.py: `request`, `endpoint`, `cid`, `request_body`. -/
def logAccessParamNames : List String :=
  ["request", "endpoint", "cid", "request_body"]

/-- The keyword arguments `beacon` supplies when calling `log_access`. -/
def beaconCallKwargs : List String :=
  ["request", "endpoint", "cid", "timestamp"]

/-- `request.GET.get('resource_id') or request.POST.get('resource_id')`,
collapsed to `""` when falsy. -/
def beaconRid (req : Request) : String :=
  match pyGetTruthy (qlookup req.GET "resource_id") with
  | some v => v
  | none => (qlookup req.POST "resource_id").getD ""

/-- `beacon` (tracker/views/api.py).  After validating `resource_id`, the
source calls `log_access(request=..., endpoint=..., cid=...,
timestamp=datetime.datetime.now())`.  `log_access` has no `timestamp`
parameter, so Python raises `TypeError` before the function body runs; the
surrounding `except Exception` turns this into a 500 response and no row is
created.  The embedding checks the supplied keyword names against the
callee's parameter list to model this call-time failure. -/
def beacon (db : DB) (req : Request) : ApiResp × DB :=
  let rid := beaconRid req
  if rid = "" then (.err 400 "resource_id is required", db)
  else if !docExists db rid then (.err 404 "Document not found", db)
  else if beaconCallKwargs.all (fun k => logAccessParamNames.contains k) then
    let (_, db') := log_access db req "/api/beacon" (some rid) none
    (.okStatus, db')
  else
    (.err 500 "log_access() got an unexpected keyword argument 'timestamp'", db)

/-! ## Decoy endpoints (tracker/views/{assets,fonts,health,config,telemetry}.py) -/

/-- A camouflage HTTP response, reduced to status and content type. -/
structure HResp where
  status : Nat
  content_type : String
deriving DecidableEq, Repr

/-- `filename.endswith(suffix)`. -/
def endsWithStr (s suffix : String) : Bool :=
  suffix.data.isSuffixOf s.data

/-- The gate shared by the asset/font/theme views:
`if resource_id and Document.objects.filter(cid=resource_id).exists():` —
`some v` exactly when an `AccessLog` row will be created for cid `v`. -/
def gatedCid (db : DB) (req : Request) : Option String :=
  match qlookup req.GET "resource_id" with
  | some v => if v ≠ "" ∧ docExists db v = true then some v else none
  | none => none

/-- Response body selection of `media_asset`. -/
def mediaAssetResp (filename : String) : HResp :=
  if endsWithStr filename ".png" then ⟨200, "image/png"⟩
  else if endsWithStr filename ".svg" || endsWithStr filename ".gif" ||
          endsWithStr filename ".jpg" || endsWithStr filename ".jpeg" ||
          endsWithStr filename ".webp" then ⟨200, "image/png"⟩
  else ⟨200, "application/octet-stream"⟩

/-- `media_asset` (tracker/views/assets.py). -/
def media_asset (db : DB) (req : Request) (filename : String) : HResp × DB :=
  let db' := match gatedCid db req with
    | some v => (log_access db req ("/assets/media/" ++ filename) (some v) none).2
    | none => db
  (mediaAssetResp filename, db')

/-- `static_asset` (tracker/views/assets.py). -/
def static_asset (db : DB) (req : Request) (path : String) : HResp × DB :=
  let db' := match gatedCid db req with
    | some v => (log_access db req ("/assets/static/" ++ path) (some v) none).2
    | none => db
  (⟨200, "image/png"⟩, db')

/-- `font_file` (tracker/views/fonts.py). -/
def font_file (db : DB) (req : Request) (fontname : String) : HResp × DB :=
  let db' := match gatedCid db req with
    | some v => (log_access db req ("/fonts/" ++ fontname) (some v) none).2
    | none => db
  (⟨200, "font/woff2"⟩, db')

/-- `theme_file` (tracker/views/fonts.py). -/
def theme_file (db : DB) (req : Request) (themename : String) : HResp × DB :=
  let db' := match gatedCid db req with
    | some v => (log_access db req ("/themes/" ++ themename) (some v) none).2
    | none => db
  (⟨200, "text/css"⟩, db')

/-- `request.GET.get('cid', request.GET.get('c'))` (health/config views). -/
def cidOrC (req : Request) : Option String :=
  match qlookup req.GET "cid" with
  | some v => some v
  | none => qlookup req.GET "c"

/-- `ping` (tracker/views/health.py): always logs. -/
def ping (db : DB) (req : Request) : HResp × DB :=
  (⟨200, "text/plain"⟩, (log_access db req "/health/ping" (cidOrC req) none).2)

/-- `ready` (tracker/views/health.py): always logs. -/
def ready (db : DB) (req : Request) : HResp × DB :=
  (⟨200, "application/json"⟩,
   (log_access db req "/status/ready" (cidOrC req) none).2)

/-- `prefetch_init` (tracker/views/health.py): always logs. -/
def prefetch_init (db : DB) (req : Request) : HResp × DB :=
  (⟨200, "application/json"⟩,
   (log_access db req "/prefetch/init" (cidOrC req) none).2)

/-- `runtime_config` (tracker/views/config.py): always logs. -/
def runtime_config (db : DB) (req : Request) : HResp × DB :=
  (⟨200, "application/json"⟩,
   (log_access db req "/config/runtime.json" (cidOrC req) none).2)

/-- `ui_flags` (tracker/views/config.py): always logs. -/
def ui_flags (db : DB) (req : Request) : HResp × DB :=
  (⟨200, "application/json"⟩,
   (log_access db req "/config/ui-flags.json" (cidOrC req) none).2)

/-- `doc_settings` (tracker/views/config.py): always logs. -/
def doc_settings (db : DB) (req : Request) : HResp × DB :=
  (⟨200, "application/json"⟩,
   (log_access db req "/config/doc-settings.json" (cidOrC req) none).2)

/-- `metrics` (tracker/views/telemetry.py): a missing or unparseable body
becomes the empty dict and is logged via `log_telemetry`; a JSON object is
logged as-is.  A valid non-object JSON body passes `json.loads` (only
`JSONDecodeError` is caught), and then `payload.get('client', '')` inside
`log_telemetry` raises `AttributeError` before any row is created — the
uncaught exception surfaces as a 500 response with the store unchanged. -/
def metrics (db : DB) (req : Request) : HResp × DB :=
  match req.body_json with
  | .missing =>
    (⟨200, "application/json"⟩, (log_telemetry db req "/telemetry/metrics" []).2)
  | .obj payload =>
    (⟨200, "application/json"⟩,
     (log_telemetry db req "/telemetry/metrics" payload).2)
  | .nonObj => (⟨500, "text/html"⟩, db)

/-- `client_info` (tracker/views/telemetry.py): same body handling as
`metrics`, including the `AttributeError` path for non-object JSON. -/
def client_info (db : DB) (req : Request) : HResp × DB :=
  match req.body_json with
  | .missing =>
    (⟨200, "application/json"⟩, (log_telemetry db req "/telemetry/client" []).2)
  | .obj payload =>
    (⟨200, "application/json"⟩,
     (log_telemetry db req "/telemetry/client" payload).2)
  | .nonObj => (⟨500, "text/html"⟩, db)

/-- `events` (tracker/views/telemetry.py): same body handling as `metrics`,
including the `AttributeError` path for non-object JSON. -/
def events (db : DB) (req : Request) : HResp × DB :=
  match req.body_json with
  | .missing =>
    (⟨200, "application/json"⟩, (log_telemetry db req "/telemetry/events" []).2)
  | .obj payload =>
    (⟨200, "application/json"⟩,
     (log_telemetry db req "/telemetry/events" payload).2)
  | .nonObj => (⟨500, "text/html"⟩, db)

/-! ## Dashboard aggregations (tracker/views/dashboard.py) -/

/-- Distinct values in first-appearance order. -/
def distinctKeys (l : List String) : List String :=
  l.foldl (fun acc x => if x ∈ acc then acc else acc ++ [x]) []

/-- Number of occurrences of `k` in `l`. -/
def countKey (l : List String) (k : String) : Nat :=
  (l.filter (fun x => x = k)).length

/-- `values(f).annotate(count=Count('id'))`: one `(value, count)` pair per
distinct value. -/
def groupCounts (l : List String) : List (String × Nat) :=
  (distinctKeys l).map (fun k => (k, countKey l k))

/-- Stable insertion into a descending-count list. -/
def insertDesc (p : String × Nat) : List (String × Nat) → List (String × Nat)
  | [] => [p]
  | q :: qs => if p.2 ≤ q.2 then q :: insertDesc p qs else p :: q :: qs

/-- `.order_by('-count')`: stable sort, descending counts. -/
def sortDesc : List (String × Nat) → List (String × Nat)
  | [] => []
  | p :: ps => insertDesc p (sortDesc ps)

/-- `AccessLog.objects.values('endpoint').annotate(count=Count('id'))
.order_by('-count')[:10]`. -/
def events_by_endpoint (db : DB) : List (String × Nat) :=
  (sortDesc (groupCounts (db.logs.map (fun e => e.endpoint)))).take 10

/-- `AccessLog.objects.exclude(country='').values('country')...[:10]`. -/
def events_by_country (db : DB) : List (String × Nat) :=
  (sortDesc (groupCounts
    ((db.logs.map (fun e => e.country)).filter (fun c => c ≠ "")))).take 10

/-- `AccessLog.objects.exclude(client_app='').values('client_app')...[:10]`. -/
def events_by_client (db : DB) : List (String × Nat) :=
  (sortDesc (groupCounts
    ((db.logs.map (fun e => e.client_app)).filter (fun c => c ≠ "")))).take 10

/-- `AccessLog.objects.exclude(isp='').values('isp')...[:5]` — note the
source slices the ISP ranking at five entries. -/
def top_isps (db : DB) : List (String × Nat) :=
  (sortDesc (groupCounts
    ((db.logs.map (fun e => e.isp)).filter (fun c => c ≠ "")))).take 5

/-! ## Invariants of reachable database states -/

/-- Well-formedness of the `Document` table: fresh primary keys and
uniqueness of both `id` and `cid`. -/
def DocsOk (db : DB) : Prop :=
  (∀ d ∈ db.documents, d.id < db.next_doc_id) ∧
  (∀ d1 ∈ db.documents, ∀ d2 ∈ db.documents, d1.cid = d2.cid → d1 = d2) ∧
  (∀ d1 ∈ db.documents, ∀ d2 ∈ db.documents, d1.id = d2.id → d1 = d2)

/-- Well-formedness of the `AccessLog` table: fresh primary keys, and the
document foreign key is populated exactly for rows with a non-empty cid,
pointing at the document carrying that cid. -/
def LogsOk (db : DB) : Prop :=
  (∀ e ∈ db.logs, e.id < db.next_log_id) ∧
  (∀ e ∈ db.logs, e.cid = "" → e.document = none) ∧
  (∀ e ∈ db.logs, e.cid ≠ "" →
    ∃ d ∈ db.documents, d.cid = e.cid ∧ e.document = some d.id)

/-- The first-access flag is set exactly on the earliest row of its cid. -/
def FirstOk (db : DB) : Prop :=
  ∀ e ∈ db.logs, e.cid ≠ "" →
    (e.is_first_access = true ↔
      ∀ e' ∈ db.logs, e'.id < e.id → e'.cid ≠ e.cid)

/-- Invariant of every database reachable through the ingestion pipeline. -/
def Inv (db : DB) : Prop := DocsOk db ∧ LogsOk db ∧ FirstOk db

/-! ## Lemmas about `get_or_create_by_cid` -/

theorem goc_cid (db : DB) (c : String) : (get_or_create_by_cid db c).1.cid = c := by
  unfold get_or_create_by_cid
  cases h : db.documents.find? (fun d => d.cid == c) with
  | none => rfl
  | some d =>
    have := List.find?_some h
    simpa using this

theorem goc_logs (db : DB) (c : String) :
    (get_or_create_by_cid db c).2.logs = db.logs := by
  unfold get_or_create_by_cid
  cases h : db.documents.find? (fun d => d.cid == c) <;> rfl

theorem goc_next_log (db : DB) (c : String) :
    (get_or_create_by_cid db c).2.next_log_id = db.next_log_id := by
  unfold get_or_create_by_cid
  cases h : db.documents.find? (fun d => d.cid == c) <;> rfl

theorem goc_mem (db : DB) (c : String) :
    (get_or_create_by_cid db c).1 ∈ (get_or_create_by_cid db c).2.documents := by
  unfold get_or_create_by_cid
  cases h : db.documents.find? (fun d => d.cid == c) with
  | none => simp
  | some d => simpa using List.mem_of_find?_eq_some h

theorem goc_sub (db : DB) (c : String) {d : Document} (hd : d ∈ db.documents) :
    d ∈ (get_or_create_by_cid db c).2.documents := by
  unfold get_or_create_by_cid
  cases h : db.documents.find? (fun x => x.cid == c) with
  | none => simp [hd]
  | some x => simpa using hd

theorem goc_char (db : DB) (c : String) {d : Document}
    (hd : d ∈ (get_or_create_by_cid db c).2.documents) :
    d ∈ db.documents ∨ d = (get_or_create_by_cid db c).1 := by
  revert hd
  unfold get_or_create_by_cid
  cases h : db.documents.find? (fun x => x.cid == c) with
  | none =>
    intro hd
    rcases List.mem_append.mp hd with h1 | h1
    · exact Or.inl h1
    · exact Or.inr (by simpa using h1)
  | some x => intro hd; exact Or.inl hd

theorem goc_existing (db : DB) (c : String) {d0 : Document}
    (hd0 : d0 ∈ db.documents) (hc : d0.cid = c) :
    (get_or_create_by_cid db c).2 = db := by
  have hfind : (db.documents.find? (fun x => x.cid == c)).isSome := by
    rw [List.find?_isSome]
    exact ⟨d0, hd0, by simpa using hc⟩
  unfold get_or_create_by_cid
  cases h : db.documents.find? (fun x => x.cid == c) with
  | none => rw [h] at hfind; simp at hfind
  | some x => rfl

theorem goc_docsOk (db : DB) (c : String) (h : DocsOk db) :
    DocsOk (get_or_create_by_cid db c).2 := by
  obtain ⟨hbound, hcid, hid⟩ := h
  unfold get_or_create_by_cid
  cases hf : db.documents.find? (fun x => x.cid == c) with
  | some d => exact ⟨hbound, hcid, hid⟩
  | none =>
    have hno : ∀ d ∈ db.documents, d.cid ≠ c := by
      intro d hd
      have := List.find?_eq_none.mp hf d hd
      simpa using this
    refine ⟨?_, ?_, ?_⟩
    · intro d hd
      rcases List.mem_append.mp hd with h1 | h1
      · exact Nat.lt_trans (hbound d h1) (Nat.lt_succ_self _)
      · simp at h1; subst h1; exact Nat.lt_succ_self _
    · intro d1 hd1 d2 hd2 hceq
      rcases List.mem_append.mp hd1 with h1 | h1 <;>
        rcases List.mem_append.mp hd2 with h2 | h2
      · exact hcid d1 h1 d2 h2 hceq
      · simp at h2; subst h2; simp at hceq; exact absurd hceq (hno d1 h1)
      · simp at h1; subst h1; simp at hceq
        exact absurd hceq.symm (hno d2 h2)
      · simp at h1 h2; subst h1; subst h2; rfl
    · intro d1 hd1 d2 hd2 hideq
      rcases List.mem_append.mp hd1 with h1 | h1 <;>
        rcases List.mem_append.mp hd2 with h2 | h2
      · exact hid d1 h1 d2 h2 hideq
      · simp at h2; subst h2; simp at hideq
        exact absurd hideq (Nat.ne_of_lt (hbound d1 h1))
      · simp at h1; subst h1; simp at hideq
        exact absurd hideq.symm (Nat.ne_of_lt (hbound d2 h2))
      · simp at h1 h2; subst h1; subst h2; rfl

/-- On a well-formed state, an existing row is FK-linked to the document
resolved for `c` exactly when its own cid is `c`. -/
theorem goc_doc_iff (db : DB) (c : String) (hc : c ≠ "") (hInv : Inv db)
    {e : AccessLog} (he : e ∈ db.logs) :
    e.document = some (get_or_create_by_cid db c).1.id ↔ e.cid = c := by
  obtain ⟨hdocs, hlogs, _⟩ := hInv
  have hdocs' := goc_docsOk db c hdocs
  have hdcid : (get_or_create_by_cid db c).1.cid = c := goc_cid db c
  have hdmem := goc_mem db c
  constructor
  · intro hdoc
    by_cases hec : e.cid = ""
    · rw [hlogs.2.1 e he hec] at hdoc; simp at hdoc
    · obtain ⟨d', hd'mem, hd'cid, hd'doc⟩ := hlogs.2.2 e he hec
      rw [hd'doc] at hdoc
      have hidEq : d'.id = (get_or_create_by_cid db c).1.id := by
        simpa using hdoc
      have : d' = (get_or_create_by_cid db c).1 :=
        hdocs'.2.2 d' (goc_sub db c hd'mem) _ hdmem hidEq
      rw [← hd'cid, this, hdcid]
  · intro hec
    obtain ⟨d', hd'mem, hd'cid, hd'doc⟩ := hlogs.2.2 e he (by rw [hec]; exact hc)
    have : d' = (get_or_create_by_cid db c).1 := by
      refine hdocs'.2.1 d' (goc_sub db c hd'mem) _ hdmem ?_
      rw [hd'cid, hec, hdcid]
    rw [hd'doc, this]

/-! ## Lemmas about `log_access` -/

theorem log_access_db1_logs (db : DB) (c : String) :
    (log_access_db1 db c).logs = db.logs := by
  unfold log_access_db1
  split
  · rfl
  · exact goc_logs db c

theorem log_access_db1_next_log (db : DB) (c : String) :
    (log_access_db1 db c).next_log_id = db.next_log_id := by
  unfold log_access_db1
  split
  · rfl
  · exact goc_next_log db c

theorem log_access_logs (db : DB) (req : Request) (ep : String)
    (cid : Option String) (body : Option (List (String × String))) :
    (log_access db req ep cid body).2.logs =
      db.logs ++ [(log_access db req ep cid body).1] := by
  simp [log_access, log_access_db1_logs]

theorem log_access_fst_id (db : DB) (req : Request) (ep : String)
    (cid : Option String) (body : Option (List (String × String))) :
    (log_access db req ep cid body).1.id = db.next_log_id := by
  simp [log_access, log_access_db1_next_log]

theorem log_access_next_log (db : DB) (req : Request) (ep : String)
    (cid : Option String) (body : Option (List (String × String))) :
    (log_access db req ep cid body).2.next_log_id = db.next_log_id + 1 := by
  simp [log_access, log_access_db1_next_log]

theorem log_access_fst_cid (db : DB) (req : Request) (ep : String)
    (cid : Option String) (body : Option (List (String × String))) :
    (log_access db req ep cid body).1.cid = effective_cid cid req.GET := rfl

theorem log_access_fst_document (db : DB) (req : Request) (ep : String)
    (cid : Option String) (body : Option (List (String × String))) :
    (log_access db req ep cid body).1.document =
      log_access_docRef db (effective_cid cid req.GET) := rfl

theorem log_access_fst_first (db : DB) (req : Request) (ep : String)
    (cid : Option String) (body : Option (List (String × String))) :
    (log_access db req ep cid body).1.is_first_access =
      log_access_first db (effective_cid cid req.GET) := rfl

theorem log_access_documents (db : DB) (req : Request) (ep : String)
    (cid : Option String) (body : Option (List (String × String))) :
    (log_access db req ep cid body).2.documents =
      (log_access_db1 db (effective_cid cid req.GET)).documents := rfl

theorem log_access_next_doc (db : DB) (req : Request) (ep : String)
    (cid : Option String) (body : Option (List (String × String))) :
    (log_access db req ep cid body).2.next_doc_id =
      (log_access_db1 db (effective_cid cid req.GET)).next_doc_id := rfl

/-- Meaning of the computed `is_first_access` flag on a well-formed state:
true exactly when no existing row carries the same cid. -/
theorem log_access_first_iff (db : DB) (c : String) (hc : c ≠ "")
    (hInv : Inv db) :
    log_access_first db c = true ↔ ∀ e ∈ db.logs, e.cid ≠ c := by
  unfold log_access_first
  rw [if_neg hc]
  rw [Bool.not_eq_true']
  rw [List.any_eq_false]
  constructor
  · intro h e he
    have := h e (by rw [goc_logs]; exact he)
    intro hcid
    exact this (by simpa using (goc_doc_iff db c hc hInv he).mpr hcid)
  · intro h e he
    rw [goc_logs] at he
    simp only [beq_iff_eq]
    intro hdoc
    exact h e he ((goc_doc_iff db c hc hInv he).mp hdoc)

theorem log_access_db1_docsOk (db : DB) (c : String) (h : DocsOk db) :
    DocsOk (log_access_db1 db c) := by
  unfold log_access_db1
  split
  · exact h
  · exact goc_docsOk db c h

theorem log_access_db1_sub (db : DB) (c : String) {d : Document}
    (hd : d ∈ db.documents) : d ∈ (log_access_db1 db c).documents := by
  unfold log_access_db1
  split
  · exact hd
  · exact goc_sub db c hd

theorem log_access_db1_of_ne (db : DB) (c : String) (hc : c ≠ "") :
    log_access_db1 db c = (get_or_create_by_cid db c).2 := by
  unfold log_access_db1
  exact if_neg hc

/-- `DocsOk` only depends on the document table and its key counter. -/
theorem docsOk_congr {db1 db2 : DB} (hdocs : db1.documents = db2.documents)
    (hnext : db1.next_doc_id = db2.next_doc_id) (h : DocsOk db2) :
    DocsOk db1 := by
  unfold DocsOk at *
  rw [hdocs, hnext]
  exact h

/-- Ingesting one request preserves the database invariant. -/
theorem log_access_inv (db : DB) (req : Request) (ep : String)
    (cid : Option String) (body : Option (List (String × String)))
    (h : Inv db) : Inv (log_access db req ep cid body).2 := by
  obtain ⟨hdocs, hlogs, hfirst⟩ := h
  have hbound := hlogs.1
  refine ⟨?_, ⟨?_, ?_, ?_⟩, ?_⟩
  · exact docsOk_congr (log_access_documents ..) (log_access_next_doc ..)
      (log_access_db1_docsOk db _ hdocs)
  · -- primary keys of logs stay below the counter
    rw [log_access_logs, log_access_next_log]
    intro x hx
    rcases List.mem_append.mp hx with h1 | h1
    · exact Nat.lt_trans (hbound x h1) (Nat.lt_succ_self _)
    · simp at h1; subst h1
      rw [log_access_fst_id]
      exact Nat.lt_succ_self _
  · -- empty cid means no document reference
    rw [log_access_logs]
    intro x hx hxcid
    rcases List.mem_append.mp hx with h1 | h1
    · exact hlogs.2.1 x h1 hxcid
    · simp at h1; subst h1
      rw [log_access_fst_cid] at hxcid
      rw [log_access_fst_document, hxcid]
      unfold log_access_docRef
      rw [if_pos rfl]
  · -- non-empty cid rows are linked to the document with that cid
    rw [log_access_logs]
    intro x hx hxcid
    rcases List.mem_append.mp hx with h1 | h1
    · obtain ⟨d, hdmem, hdcid, hddoc⟩ := hlogs.2.2 x h1 hxcid
      exact ⟨d, by rw [log_access_documents]; exact log_access_db1_sub db _ hdmem,
             hdcid, hddoc⟩
    · simp at h1; subst h1
      rw [log_access_fst_cid] at hxcid ⊢
      refine ⟨(get_or_create_by_cid db (effective_cid cid req.GET)).1, ?_, ?_, ?_⟩
      · rw [log_access_documents, log_access_db1_of_ne db _ hxcid]
        exact goc_mem db _
      · exact goc_cid db _
      · rw [log_access_fst_document]
        unfold log_access_docRef
        rw [if_neg hxcid]
  · -- the first-access flag stays correct on every row
    intro x hx hxcid
    rw [log_access_logs] at hx
    rw [log_access_logs, List.forall_mem_append]
    rcases List.mem_append.mp hx with h1 | h1
    · -- an old row: the new row's id is too large to matter
      have hxlt : x.id < db.next_log_id := hbound x h1
      have hnew : ∀ x' ∈ [(log_access db req ep cid body).1],
          x'.id < x.id → x'.cid ≠ x.cid := by
        intro x' hx'
        simp at hx'; subst hx'
        rw [log_access_fst_id]
        intro hlt
        exact absurd (Nat.lt_trans hxlt hlt) (Nat.lt_irrefl _)
      rw [hfirst x h1 hxcid]
      constructor
      · intro hold; exact ⟨hold, hnew⟩
      · intro hpair; exact hpair.1
    · -- the new row: reduce to `log_access_first_iff`
      simp at h1; subst h1
      rw [log_access_fst_cid] at hxcid
      rw [log_access_fst_first, log_access_fst_id, log_access_fst_cid]
      rw [log_access_first_iff db _ hxcid ⟨hdocs, hlogs, hfirst⟩]
      constructor
      · intro hnone
        refine ⟨?_, ?_⟩
        · intro x' hx' _; exact hnone x' hx'
        · intro x' hx'
          simp at hx'; subst hx'
          rw [log_access_fst_id]
          intro hlt
          exact absurd hlt (Nat.lt_irrefl _)
      · intro hpair x' hx'
        exact hpair.1 x' hx' (hbound x' hx')

/-! ## Lemmas about `log_telemetry` -/

/-- The row returned by `log_telemetry` is the freshly created row with the
two (and only two) conditional client-field merges applied. -/
theorem log_telemetry_fst (db : DB) (req : Request) (ep : String)
    (payload : List (String × String)) :
    (log_telemetry db req ep payload).1 =
      { (log_access db req ep none (some payload)).1 with
        client_app :=
          if qget payload "client" "" ≠ "" ∧
             (log_access db req ep none (some payload)).1.client_app = ""
          then qget payload "client" ""
          else (log_access db req ep none (some payload)).1.client_app,
        client_build :=
          if qget payload "build" "" ≠ "" ∧
             (log_access db req ep none (some payload)).1.client_build = ""
          then qget payload "build" ""
          else (log_access db req ep none (some payload)).1.client_build } := by
  unfold log_telemetry
  dsimp only
  by_cases hca : qget payload "client" "" ≠ "" ∧
      (log_access db req ep none (some payload)).1.client_app = "" <;>
    by_cases hcb : qget payload "build" "" ≠ "" ∧
        (log_access db req ep none (some payload)).1.client_build = "" <;>
      simp [hca, hcb]

theorem log_telemetry_snd_logs (db : DB) (req : Request) (ep : String)
    (payload : List (String × String)) :
    (log_telemetry db req ep payload).2.logs =
      ((log_access db req ep none (some payload)).2.logs).map
        (fun x => if x.id == (log_access db req ep none (some payload)).1.id
                  then (log_telemetry db req ep payload).1 else x) := rfl

theorem log_telemetry_snd_documents (db : DB) (req : Request) (ep : String)
    (payload : List (String × String)) :
    (log_telemetry db req ep payload).2.documents =
      (log_access db req ep none (some payload)).2.documents := rfl

theorem log_telemetry_snd_next_doc (db : DB) (req : Request) (ep : String)
    (payload : List (String × String)) :
    (log_telemetry db req ep payload).2.next_doc_id =
      (log_access db req ep none (some payload)).2.next_doc_id := rfl

theorem log_telemetry_snd_next_log (db : DB) (req : Request) (ep : String)
    (payload : List (String × String)) :
    (log_telemetry db req ep payload).2.next_log_id =
      (log_access db req ep none (some payload)).2.next_log_id := rfl

theorem log_telemetry_fst_id (db : DB) (req : Request) (ep : String)
    (payload : List (String × String)) :
    (log_telemetry db req ep payload).1.id =
      (log_access db req ep none (some payload)).1.id := by
  rw [log_telemetry_fst]

theorem log_telemetry_fst_cid (db : DB) (req : Request) (ep : String)
    (payload : List (String × String)) :
    (log_telemetry db req ep payload).1.cid =
      (log_access db req ep none (some payload)).1.cid := by
  rw [log_telemetry_fst]

theorem log_telemetry_fst_document (db : DB) (req : Request) (ep : String)
    (payload : List (String × String)) :
    (log_telemetry db req ep payload).1.document =
      (log_access db req ep none (some payload)).1.document := by
  rw [log_telemetry_fst]

theorem log_telemetry_fst_first (db : DB) (req : Request) (ep : String)
    (payload : List (String × String)) :
    (log_telemetry db req ep payload).1.is_first_access =
      (log_access db req ep none (some payload)).1.is_first_access := by
  rw [log_telemetry_fst]

/-- Mapping a function that fixes every element is the identity. -/
theorem map_id_of_eq {α : Type} (l : List α) (f : α → α)
    (h : ∀ x ∈ l, f x = x) : l.map f = l := by
  induction l with
  | nil => rfl
  | cons a t ih =>
    simp only [List.map_cons, h a (by simp)]
    rw [ih (fun x hx => h x (by simp [hx]))]

/-- On a well-formed state, the telemetry update rewrites only the freshly
appended row: pre-existing rows have smaller primary keys. -/
theorem log_telemetry_logs_inv (db : DB) (req : Request) (ep : String)
    (payload : List (String × String)) (h : Inv db) :
    (log_telemetry db req ep payload).2.logs =
      db.logs ++ [(log_telemetry db req ep payload).1] := by
  rw [log_telemetry_snd_logs, log_access_logs, List.map_append]
  have hold : ∀ x ∈ db.logs,
      (if x.id == (log_access db req ep none (some payload)).1.id
       then (log_telemetry db req ep payload).1 else x) = x := by
    intro x hx
    have hxlt : x.id < db.next_log_id := h.2.1.1 x hx
    rw [log_access_fst_id]
    rw [if_neg]
    simp only [beq_iff_eq]
    exact Nat.ne_of_lt hxlt
  rw [map_id_of_eq _ _ hold]
  simp

/-- A telemetry ingestion call also preserves the database invariant. -/
theorem log_telemetry_inv (db : DB) (req : Request) (ep : String)
    (payload : List (String × String)) (h : Inv db) :
    Inv (log_telemetry db req ep payload).2 := by
  obtain ⟨hdocsA, hlogsA, hfirstA⟩ := log_access_inv db req ep none (some payload) h
  have hidE := log_telemetry_fst_id db req ep payload
  have hcidE := log_telemetry_fst_cid db req ep payload
  have hdocE := log_telemetry_fst_document db req ep payload
  have hfirstE := log_telemetry_fst_first db req ep payload
  have hlogsT := log_telemetry_logs_inv db req ep payload h
  have hlogsAeq := log_access_logs db req ep none (some payload)
  have hmemA : ∀ x ∈ db.logs, x ∈ (log_access db req ep none (some payload)).2.logs := by
    intro x hx; rw [hlogsAeq]; exact List.mem_append_left _ hx
  have hmemAe : (log_access db req ep none (some payload)).1 ∈
      (log_access db req ep none (some payload)).2.logs := by
    rw [hlogsAeq]; exact List.mem_append_right _ (by simp)
  have hinner : ∀ (a : Nat) (s : String),
      (∀ x' ∈ db.logs ++ [(log_telemetry db req ep payload).1],
        x'.id < a → x'.cid ≠ s) ↔
      (∀ x' ∈ (log_access db req ep none (some payload)).2.logs,
        x'.id < a → x'.cid ≠ s) := by
    intro a s
    rw [hlogsAeq, List.forall_mem_append, List.forall_mem_append]
    simp only [List.forall_mem_singleton]
    rw [hidE, hcidE]
  refine ⟨?_, ⟨?_, ?_, ?_⟩, ?_⟩
  · exact docsOk_congr (log_telemetry_snd_documents ..)
      (log_telemetry_snd_next_doc ..) hdocsA
  · rw [hlogsT, log_telemetry_snd_next_log]
    intro x hx
    rcases List.mem_append.mp hx with h1 | h1
    · exact hlogsA.1 x (hmemA x h1)
    · simp at h1; subst h1
      rw [hidE]
      exact hlogsA.1 _ hmemAe
  · rw [hlogsT]
    intro x hx hxcid
    rcases List.mem_append.mp hx with h1 | h1
    · exact hlogsA.2.1 x (hmemA x h1) hxcid
    · simp at h1; subst h1
      rw [hcidE] at hxcid
      rw [hdocE]
      exact hlogsA.2.1 _ hmemAe hxcid
  · rw [hlogsT]
    intro x hx hxcid
    rcases List.mem_append.mp hx with h1 | h1
    · obtain ⟨d, hdm, hdc, hdd⟩ := hlogsA.2.2 x (hmemA x h1) hxcid
      exact ⟨d, by rw [log_telemetry_snd_documents]; exact hdm, hdc, hdd⟩
    · simp at h1; subst h1
      rw [hcidE] at hxcid ⊢
      rw [hdocE]
      obtain ⟨d, hdm, hdc, hdd⟩ := hlogsA.2.2 _ hmemAe hxcid
      exact ⟨d, by rw [log_telemetry_snd_documents]; exact hdm, hdc, hdd⟩
  · intro x hx hxcid
    rw [hlogsT] at hx
    rw [hlogsT]
    rcases List.mem_append.mp hx with h1 | h1
    · rw [hinner x.id x.cid]
      exact hfirstA x (hmemA x h1) hxcid
    · simp at h1; subst h1
      rw [hinner _ _, hidE, hcidE, hfirstE]
      rw [hcidE] at hxcid
      exact hfirstA _ hmemAe hxcid

/-! ## The invariant holds in every reachable state -/

theorem step_inv (db : DB) (c : Call) (h : Inv db) : Inv (step db c) := by
  cases c with
  | access req ep cid body => exact log_access_inv db req ep cid body h
  | telemetry req ep payload => exact log_telemetry_inv db req ep payload h

theorem inv_emptyDB : Inv emptyDB := by
  refine ⟨⟨?_, ?_, ?_⟩, ⟨?_, ?_, ?_⟩, ?_⟩ <;> intro x hx <;> simp [emptyDB] at hx

theorem inv_foldl (l : List Call) (db : DB) (h : Inv db) :
    Inv (l.foldl step db) := by
  induction l generalizing db with
  | nil => exact h
  | cons c t ih => exact ih _ (step_inv db c h)

theorem inv_runCalls (calls : List Call) : Inv (runCalls calls) :=
  inv_foldl calls emptyDB inv_emptyDB

/-! ## Sample data used by witnesses -/

/-- A plain GET request with no parameters or headers. -/
def reqPlain : Request :=
  ⟨"GET", [], [], "", "", "", none, none, none, .missing⟩

/-- Two ingestion calls for the same cid. -/
def sampleCalls : List Call :=
  [.access reqPlain "/health/ping" (some "doc1") none,
   .access reqPlain "/health/ping" (some "doc1") none]

/-- The second row created by `sampleCalls`. -/
def sampleLog1 : AccessLog := (runCalls sampleCalls).logs.getD 1 default

/-! ## Claim theorems -/

/-- C1: over any sequence of ingestion calls starting from the empty store,
a row with a non-empty cid carries `is_first_access = true` exactly when no
earlier-created row (smaller primary key) references the same cid — so the
first event of a fresh cid has the flag set and every later event for that
cid does not. -/
theorem first_access_flag (calls : List Call) (e : AccessLog)
    (he : e ∈ (runCalls calls).logs) (hc : e.cid ≠ "") :
    e.is_first_access = true ↔
      ∀ e' ∈ (runCalls calls).logs, e'.id < e.id → e'.cid ≠ e.cid :=
  (inv_runCalls calls).2.2 e he hc

/-- Witness for C1 at a concrete two-call run on cid "doc1": the second row
is in the store with a non-empty cid, the biconditional holds for it, and
its flag is indeed false. -/
theorem first_access_flag_witness :
    sampleLog1 ∈ (runCalls sampleCalls).logs ∧ sampleLog1.cid ≠ "" ∧
    (sampleLog1.is_first_access = true ↔
      ∀ e' ∈ (runCalls sampleCalls).logs,
        e'.id < sampleLog1.id → e'.cid ≠ sampleLog1.cid) ∧
    sampleLog1.is_first_access = false :=
  ⟨by decide, by decide,
   first_access_flag sampleCalls sampleLog1 (by decide) (by decide), by decide⟩

/-- C8: an ingestion call whose cid argument is absent or empty and whose
request carries neither a `cid` nor a `c` query parameter still creates a
row, with no document reference, empty cid and `is_first_access = false`. -/
theorem empty_cid_event (db : DB) (req : Request) (ep : String)
    (copt : Option String) (body : Option (List (String × String)))
    (h0 : copt = none ∨ copt = some "")
    (h1 : qlookup req.GET "cid" = none)
    (h2 : qlookup req.GET "c" = none) :
    (log_access db req ep copt body).1.document = none ∧
    (log_access db req ep copt body).1.cid = "" ∧
    (log_access db req ep copt body).1.is_first_access = false ∧
    (log_access db req ep copt body).2.logs =
      db.logs ++ [(log_access db req ep copt body).1] := by
  have hc : effective_cid copt req.GET = "" := by
    rcases h0 with h | h <;> subst h <;> simp [effective_cid, qget, h1, h2]
  refine ⟨?_, ?_, ?_, log_access_logs ..⟩
  · rw [log_access_fst_document, hc]
    unfold log_access_docRef
    rw [if_pos rfl]
  · rw [log_access_fst_cid, hc]
  · rw [log_access_fst_first, hc]
    unfold log_access_first
    rw [if_pos rfl]

/-- Witness for C8 at the empty store and a parameterless request. -/
theorem empty_cid_event_witness :
    (log_access emptyDB reqPlain "/health/ping" none none).1.document = none ∧
    (log_access emptyDB reqPlain "/health/ping" none none).1.cid = "" ∧
    (log_access emptyDB reqPlain "/health/ping" none none).1.is_first_access = false ∧
    (log_access emptyDB reqPlain "/health/ping" none none).2.logs =
      emptyDB.logs ++ [(log_access emptyDB reqPlain "/health/ping" none none).1] :=
  empty_cid_event emptyDB reqPlain "/health/ping" none none
    (Or.inl rfl) (by decide) (by decide)

/-- C9: an ingestion call with a non-empty effective cid leaves a document
row with that cid in the store (creating it only when absent: when a row
with that cid already exists the table is unchanged, and cids stay unique),
and links the created event to it — the event's document reference is never
null when its cid is non-empty. -/
theorem nonempty_cid_document (db : DB) (req : Request) (ep : String)
    (copt : Option String) (body : Option (List (String × String)))
    (hInv : Inv db) (hc : effective_cid copt req.GET ≠ "") :
    (log_access db req ep copt body).1.cid = effective_cid copt req.GET ∧
    (∃ d ∈ (log_access db req ep copt body).2.documents,
      d.cid = effective_cid copt req.GET ∧
      (log_access db req ep copt body).1.document = some d.id) ∧
    (∀ d1 ∈ (log_access db req ep copt body).2.documents,
      ∀ d2 ∈ (log_access db req ep copt body).2.documents,
      d1.cid = d2.cid → d1 = d2) ∧
    (∀ d0 ∈ db.documents, d0.cid = effective_cid copt req.GET →
      (log_access db req ep copt body).2.documents = db.documents) := by
  refine ⟨log_access_fst_cid .., ?_, ?_, ?_⟩
  · refine ⟨(get_or_create_by_cid db (effective_cid copt req.GET)).1, ?_, ?_, ?_⟩
    · rw [log_access_documents, log_access_db1_of_ne db _ hc]
      exact goc_mem db _
    · exact goc_cid db _
    · rw [log_access_fst_document]
      unfold log_access_docRef
      rw [if_neg hc]
  · exact (log_access_inv db req ep copt body hInv).1.2.1
  · intro d0 hd0 hd0c
    rw [log_access_documents, log_access_db1_of_ne db _ hc,
        goc_existing db _ hd0 hd0c]

/-- Witness for C9 at the empty store with cid argument "doc1". -/
theorem nonempty_cid_document_witness :
    (log_access emptyDB reqPlain "/health/ping" (some "doc1") none).1.cid =
      effective_cid (some "doc1") reqPlain.GET ∧
    (∃ d ∈ (log_access emptyDB reqPlain "/health/ping" (some "doc1") none).2.documents,
      d.cid = effective_cid (some "doc1") reqPlain.GET ∧
      (log_access emptyDB reqPlain "/health/ping" (some "doc1") none).1.document =
        some d.id) ∧
    (∀ d1 ∈ (log_access emptyDB reqPlain "/health/ping" (some "doc1") none).2.documents,
      ∀ d2 ∈ (log_access emptyDB reqPlain "/health/ping" (some "doc1") none).2.documents,
      d1.cid = d2.cid → d1 = d2) ∧
    (∀ d0 ∈ emptyDB.documents, d0.cid = effective_cid (some "doc1") reqPlain.GET →
      (log_access emptyDB reqPlain "/health/ping" (some "doc1") none).2.documents =
        emptyDB.documents) :=
  nonempty_cid_document emptyDB reqPlain "/health/ping" (some "doc1") none
    inv_emptyDB (by decide)

/-- C10: an empty JSON list submitted to the registration endpoint is not an
error: the response is success with an empty accepted-identifier list and
the store is untouched. -/
theorem empty_batch_ok (db : DB) :
    create_document db (.arr []) = (.okIds [], db) := by
  simp [create_document]

/-! ## Registration lemmas and C6 -/

theorem uoc_cid (db : DB) (c n f : String) :
    (update_or_create db c n f).1.cid = c := by
  unfold update_or_create
  cases h : db.documents.find? (fun d => d.cid == c) with
  | none => rfl
  | some d =>
    have hd := List.find?_some h
    simp only [beq_iff_eq] at hd
    exact hd

theorem uoc_docs_char (db : DB) (c n f : String) {d : Document}
    (hd : d ∈ (update_or_create db c n f).2.documents) :
    d ∈ db.documents ∨ d.cid = c := by
  revert hd
  unfold update_or_create
  cases h : db.documents.find? (fun x => x.cid == c) with
  | none =>
    intro hd
    rcases List.mem_append.mp hd with h1 | h1
    · exact Or.inl h1
    · simp at h1; subst h1; exact Or.inr rfl
  | some d0 =>
    intro hd
    obtain ⟨x, hx, hxe⟩ := List.mem_map.mp hd
    by_cases hid : (x.id == d0.id) = true
    · rw [if_pos hid] at hxe
      subst hxe
      have hc0 := List.find?_some h
      simp only [beq_iff_eq] at hc0
      exact Or.inr hc0
    · rw [if_neg hid] at hxe
      subst hxe
      exact Or.inl hx

theorem regFold_fst (items : List RegItem) (acc : List String) (db : DB) :
    (items.foldl regStep (acc, db)).1 = acc ++ items.filterMap truthyUuid := by
  induction items generalizing acc db with
  | nil => simp
  | cons i t ih =>
    simp only [List.foldl_cons, List.filterMap_cons]
    cases h : truthyUuid i with
    | none =>
      rw [show regStep (acc, db) i = (acc, db) by simp [regStep, h]]
      exact ih acc db
    | some u =>
      rw [show regStep (acc, db) i =
          (acc ++ [u], (update_or_create db u i.document_name i.file_path).2) by
        simp [regStep, h, uoc_cid]]
      rw [ih]
      simp

theorem regFold_docs (items : List RegItem) (acc : List String) (db : DB)
    {d : Document} (hd : d ∈ (items.foldl regStep (acc, db)).2.documents) :
    d ∈ db.documents ∨ ∃ i ∈ items, truthyUuid i = some d.cid := by
  induction items generalizing acc db with
  | nil => exact Or.inl hd
  | cons i t ih =>
    rw [List.foldl_cons] at hd
    cases h : truthyUuid i with
    | none =>
      rw [show regStep (acc, db) i = (acc, db) by simp [regStep, h]] at hd
      rcases ih acc db hd with h1 | ⟨j, hj, hje⟩
      · exact Or.inl h1
      · exact Or.inr ⟨j, List.mem_cons_of_mem _ hj, hje⟩
    | some u =>
      rw [show regStep (acc, db) i =
          (acc ++ [u], (update_or_create db u i.document_name i.file_path).2) by
        simp [regStep, h, uoc_cid]] at hd
      rcases ih _ _ hd with h1 | ⟨j, hj, hje⟩
      · rcases uoc_docs_char db u i.document_name i.file_path h1 with h2 | h2
        · exact Or.inl h2
        · exact Or.inr ⟨i, List.mem_cons_self .., by rw [h, h2]⟩
      · exact Or.inr ⟨j, List.mem_cons_of_mem _ hj, hje⟩

/-- C6: a submitted list of registration objects is processed with partial
success: items without a truthy `uuid` create no row and do not fail the
batch, the response lists exactly the accepted identifiers in order, an
error is reported exactly when a non-empty batch accepted nothing, and
every document row after the call was either already present or named by an
accepted item. -/
theorem batch_registration (db : DB) (items : List RegItem) :
    (create_document db (.arr items)).1 =
      (if items.filterMap truthyUuid = [] ∧ items ≠ []
       then ApiResp.err 400 "uuid is required for at least one item"
       else ApiResp.okIds (items.filterMap truthyUuid)) ∧
    ∀ d ∈ (create_document db (.arr items)).2.documents,
      d ∈ db.documents ∨ ∃ i ∈ items, truthyUuid i = some d.cid := by
  have hfst : (items.foldl regStep ([], db)).1 = items.filterMap truthyUuid := by
    rw [regFold_fst]; simp
  constructor
  · simp only [create_document]
    rw [hfst]
    split <;> rfl
  · intro d hd
    have hsnd : (create_document db (.arr items)).2 =
        (items.foldl regStep ([], db)).2 := by
      simp only [create_document]
      split <;> rfl
    rw [hsnd] at hd
    exact regFold_docs items [] db hd

/-- The three-object batch of the specification example: the middle object
has no identifier. -/
def regItems3 : List RegItem :=
  [⟨some "a", "", ""⟩, ⟨none, "", ""⟩, ⟨some "b", "", ""⟩]

/-- Witness for C6: on the three-object example exactly the two valid
identifiers are accepted and no error is reported. -/
theorem batch_registration_witness :
    ((create_document emptyDB (.arr regItems3)).1 =
      (if regItems3.filterMap truthyUuid = [] ∧ regItems3 ≠ []
       then ApiResp.err 400 "uuid is required for at least one item"
       else ApiResp.okIds (regItems3.filterMap truthyUuid)) ∧
     ∀ d ∈ (create_document emptyDB (.arr regItems3)).2.documents,
       d ∈ emptyDB.documents ∨ ∃ i ∈ regItems3, truthyUuid i = some d.cid) ∧
    (create_document emptyDB (.arr regItems3)).1 = .okIds ["a", "b"] :=
  ⟨batch_registration emptyDB regItems3, by decide⟩

/-- C4: the telemetry ingestion path copies the payload's `client`/`build`
values into `client_app`/`client_build` only when the corresponding field of
the freshly created event is empty (a non-empty value is never overwritten),
changes no other field of the created event, and leaves every pre-existing
row with a different primary key in the store untouched. -/
theorem telemetry_late_merge (db : DB) (req : Request) (ep : String)
    (payload : List (String × String)) :
    (log_telemetry db req ep payload).1.client_app =
      (if qget payload "client" "" ≠ "" ∧
          (log_access db req ep none (some payload)).1.client_app = ""
       then qget payload "client" ""
       else (log_access db req ep none (some payload)).1.client_app) ∧
    (log_telemetry db req ep payload).1.client_build =
      (if qget payload "build" "" ≠ "" ∧
          (log_access db req ep none (some payload)).1.client_build = ""
       then qget payload "build" ""
       else (log_access db req ep none (some payload)).1.client_build) ∧
    (log_telemetry db req ep payload).1.id =
      (log_access db req ep none (some payload)).1.id ∧
    (log_telemetry db req ep payload).1.document =
      (log_access db req ep none (some payload)).1.document ∧
    (log_telemetry db req ep payload).1.cid =
      (log_access db req ep none (some payload)).1.cid ∧
    (log_telemetry db req ep payload).1.ip_address =
      (log_access db req ep none (some payload)).1.ip_address ∧
    (log_telemetry db req ep payload).1.isp =
      (log_access db req ep none (some payload)).1.isp ∧
    (log_telemetry db req ep payload).1.country =
      (log_access db req ep none (some payload)).1.country ∧
    (log_telemetry db req ep payload).1.user_agent =
      (log_access db req ep none (some payload)).1.user_agent ∧
    (log_telemetry db req ep payload).1.accept_headers =
      (log_access db req ep none (some payload)).1.accept_headers ∧
    (log_telemetry db req ep payload).1.accept_language =
      (log_access db req ep none (some payload)).1.accept_language ∧
    (log_telemetry db req ep payload).1.os_name =
      (log_access db req ep none (some payload)).1.os_name ∧
    (log_telemetry db req ep payload).1.os_version =
      (log_access db req ep none (some payload)).1.os_version ∧
    (log_telemetry db req ep payload).1.browser_name =
      (log_access db req ep none (some payload)).1.browser_name ∧
    (log_telemetry db req ep payload).1.browser_version =
      (log_access db req ep none (some payload)).1.browser_version ∧
    (log_telemetry db req ep payload).1.endpoint =
      (log_access db req ep none (some payload)).1.endpoint ∧
    (log_telemetry db req ep payload).1.method =
      (log_access db req ep none (some payload)).1.method ∧
    (log_telemetry db req ep payload).1.query_params =
      (log_access db req ep none (some payload)).1.query_params ∧
    (log_telemetry db req ep payload).1.request_body =
      (log_access db req ep none (some payload)).1.request_body ∧
    (log_telemetry db req ep payload).1.is_first_access =
      (log_access db req ep none (some payload)).1.is_first_access ∧
    (log_telemetry db req ep payload).2.logs =
      ((log_access db req ep none (some payload)).2.logs).map
        (fun x => if x.id == (log_access db req ep none (some payload)).1.id
                  then (log_telemetry db req ep payload).1 else x) ∧
    ∀ x ∈ db.logs, x.id ≠ (log_access db req ep none (some payload)).1.id →
      x ∈ (log_telemetry db req ep payload).2.logs := by
  refine ⟨by rw [log_telemetry_fst], by rw [log_telemetry_fst],
    by rw [log_telemetry_fst], by rw [log_telemetry_fst],
    by rw [log_telemetry_fst], by rw [log_telemetry_fst],
    by rw [log_telemetry_fst], by rw [log_telemetry_fst],
    by rw [log_telemetry_fst], by rw [log_telemetry_fst],
    by rw [log_telemetry_fst], by rw [log_telemetry_fst],
    by rw [log_telemetry_fst], by rw [log_telemetry_fst],
    by rw [log_telemetry_fst], by rw [log_telemetry_fst],
    by rw [log_telemetry_fst], by rw [log_telemetry_fst],
    by rw [log_telemetry_fst], by rw [log_telemetry_fst],
    log_telemetry_snd_logs .., ?_⟩
  intro x hx hne
  rw [log_telemetry_snd_logs, log_access_logs, List.map_append]
  apply List.mem_append_left
  exact List.mem_map.mpr ⟨x, hx, by rw [if_neg (by simpa using hne)]⟩

/-- The telemetry payload of the specification example. -/
def payloadAcme : List (String × String) :=
  [("client", "Acme Reader"), ("build", "16.0")]

/-- Witness for C4 on the empty store with an empty User-Agent (so the
created event's client fields are empty) and the example payload; the merge
does fill the empty field. -/
theorem telemetry_late_merge_witness :
    ((log_telemetry emptyDB reqPlain "/telemetry/client" payloadAcme).1.client_app =
      (if qget payloadAcme "client" "" ≠ "" ∧
          (log_access emptyDB reqPlain "/telemetry/client"
            none (some payloadAcme)).1.client_app = ""
       then qget payloadAcme "client" ""
       else (log_access emptyDB reqPlain "/telemetry/client"
          none (some payloadAcme)).1.client_app)) ∧
    (log_telemetry emptyDB reqPlain "/telemetry/client" payloadAcme).1.client_app =
      "Acme Reader" ∧
    (log_telemetry emptyDB reqPlain "/telemetry/client" payloadAcme).1.client_build =
      "16.0" :=
  ⟨(telemetry_late_merge emptyDB reqPlain "/telemetry/client" payloadAcme).1,
   by decide, by decide⟩

/-! ## Decoy endpoint lemmas and C7 -/

theorem log_telemetry_logs_length (db : DB) (req : Request) (ep : String)
    (payload : List (String × String)) :
    (log_telemetry db req ep payload).2.logs.length = db.logs.length + 1 := by
  rw [log_telemetry_snd_logs, List.length_map, log_access_logs]
  simp

theorem gated_view_logs (db : DB) (req : Request) (ep : String) :
    (match gatedCid db req with
     | some v => (log_access db req ep (some v) none).2
     | none => db).logs =
    (match gatedCid db req with
     | some v => db.logs ++ [(log_access db req ep (some v) none).1]
     | none => db.logs) := by
  cases h : gatedCid db req <;> simp [log_access_logs]

theorem mediaAssetResp_status (f : String) : (mediaAssetResp f).status = 200 := by
  unfold mediaAssetResp
  split
  · rfl
  · split <;> rfl

/-- C7 (amended): the asset, font and theme endpoints append an access
event exactly when the request supplies a truthy `resource_id` that matches
a registered document (`gatedCid`), and otherwise leave the store
untouched, returning the camouflage 200 response either way; the health and
config endpoints always append exactly one event; the telemetry endpoints
append exactly one event when the request body is missing, unparseable, or
a JSON object, but append none and answer 500 when the body is valid
non-object JSON (the `AttributeError` path of `log_telemetry`). -/
theorem decoy_logging_policy (db : DB) (req : Request)
    (filename path fontname themename : String) :
    ((media_asset db req filename).2.logs =
      (match gatedCid db req with
       | some v => db.logs ++
           [(log_access db req ("/assets/media/" ++ filename) (some v) none).1]
       | none => db.logs)) ∧
    (media_asset db req filename).1.status = 200 ∧
    ((static_asset db req path).2.logs =
      (match gatedCid db req with
       | some v => db.logs ++
           [(log_access db req ("/assets/static/" ++ path) (some v) none).1]
       | none => db.logs)) ∧
    (static_asset db req path).1.status = 200 ∧
    ((font_file db req fontname).2.logs =
      (match gatedCid db req with
       | some v => db.logs ++
           [(log_access db req ("/fonts/" ++ fontname) (some v) none).1]
       | none => db.logs)) ∧
    (font_file db req fontname).1.status = 200 ∧
    ((theme_file db req themename).2.logs =
      (match gatedCid db req with
       | some v => db.logs ++
           [(log_access db req ("/themes/" ++ themename) (some v) none).1]
       | none => db.logs)) ∧
    (theme_file db req themename).1.status = 200 ∧
    (ping db req).2.logs =
      db.logs ++ [(log_access db req "/health/ping" (cidOrC req) none).1] ∧
    (ping db req).1.status = 200 ∧
    (ready db req).2.logs =
      db.logs ++ [(log_access db req "/status/ready" (cidOrC req) none).1] ∧
    (ready db req).1.status = 200 ∧
    (prefetch_init db req).2.logs =
      db.logs ++ [(log_access db req "/prefetch/init" (cidOrC req) none).1] ∧
    (prefetch_init db req).1.status = 200 ∧
    (runtime_config db req).2.logs =
      db.logs ++ [(log_access db req "/config/runtime.json" (cidOrC req) none).1] ∧
    (runtime_config db req).1.status = 200 ∧
    (ui_flags db req).2.logs =
      db.logs ++ [(log_access db req "/config/ui-flags.json" (cidOrC req) none).1] ∧
    (ui_flags db req).1.status = 200 ∧
    (doc_settings db req).2.logs =
      db.logs ++ [(log_access db req "/config/doc-settings.json" (cidOrC req) none).1] ∧
    (doc_settings db req).1.status = 200 ∧
    (metrics db req).2.logs.length =
      db.logs.length + (match req.body_json with | .nonObj => 0 | _ => 1) ∧
    (metrics db req).1.status =
      (match req.body_json with | .nonObj => 500 | _ => 200) ∧
    (client_info db req).2.logs.length =
      db.logs.length + (match req.body_json with | .nonObj => 0 | _ => 1) ∧
    (client_info db req).1.status =
      (match req.body_json with | .nonObj => 500 | _ => 200) ∧
    (events db req).2.logs.length =
      db.logs.length + (match req.body_json with | .nonObj => 0 | _ => 1) ∧
    (events db req).1.status =
      (match req.body_json with | .nonObj => 500 | _ => 200) := by
  refine ⟨gated_view_logs db req _, mediaAssetResp_status filename,
    gated_view_logs db req _, rfl,
    gated_view_logs db req _, rfl,
    gated_view_logs db req _, rfl,
    log_access_logs .., rfl,
    log_access_logs .., rfl,
    log_access_logs .., rfl,
    log_access_logs .., rfl,
    log_access_logs .., rfl,
    log_access_logs .., rfl,
    ?_, ?_, ?_, ?_, ?_, ?_⟩ <;>
  cases h : req.body_json <;>
  simp [metrics, client_info, events, h, log_telemetry_logs_length]

/-- A POST request whose body is valid JSON but not an object, for instance
the list `[]`. -/
def reqListBody : Request :=
  ⟨"POST", [], [], "", "", "", none, none, none, .nonObj⟩

/-- C7 counterexample: a telemetry request whose body is valid non-object
JSON does not create an Access Event — `json.loads` succeeds, then
`payload.get` inside `log_telemetry` raises `AttributeError`, the view
answers 500 and the store is unchanged, refuting "the telemetry endpoints
always create an Access Event". -/
theorem telemetry_nonobj_cex :
    (metrics emptyDB reqListBody).2 = emptyDB ∧
    (metrics emptyDB reqListBody).1.status = 500 ∧
    (metrics emptyDB reqListBody).2.logs.length = emptyDB.logs.length := by
  decide

/-! ## C2: the beacon's timestamp keyword argument -/

/-- A store holding one registered document with cid "doc1". -/
def beaconDocDb : DB := ⟨[⟨0, "doc1", "", ""⟩], [], 1, 0⟩

/-- A beacon request for the registered document. -/
def beaconReq : Request :=
  ⟨"GET", [("resource_id", "doc1")], [], "", "", "", none, none, none, .missing⟩

/-- C2 (evidence of the code bug): a beacon call for a registered document
reaches the `log_access(..., timestamp=...)` call, which supplies a keyword
argument that is not among `log_access`'s parameters, so the view answers
500 and persists no event — the store is returned unchanged. -/
theorem beacon_timestamp_bug :
    beacon beaconDocDb beaconReq =
      (.err 500 "log_access() got an unexpected keyword argument 'timestamp'",
       beaconDocDb) ∧
    "timestamp" ∉ logAccessParamNames := by decide

/-! ## C3: client-application precedence -/

/-- The `Word`/`Excel` token regexes match exactly when the token occurs in
the string (their version group is optional). -/
theorem searchTokenVer_isSome (lit : List Char) (s : List Char) :
    (searchTokenVer lit s).isSome = containsCI lit s := by
  induction s with
  | nil =>
    unfold searchTokenVer containsCI
    cases h : matchLitCI lit [] <;> simp [h]
  | cons c t ih =>
    unfold searchTokenVer containsCI
    cases h : matchLitCI lit (c :: t) <;> simp [h, ih]

/-- C3 counterexample: for a User-Agent carrying both a Word token and an
Excel token the detected client application is "Microsoft Excel", not
"Microsoft Word" as the claim states. -/
theorem client_app_word_excel_cex :
    (parse_user_agent "Word/1.0 Excel/2.0").client_app = "Microsoft Excel" ∧
    ¬((parse_user_agent "Word/1.0 Excel/2.0").client_app = "Microsoft Word") := by
  decide

/-- C3 (amended): client-application detection evaluates the Office rule,
then the Word rule, then the Excel rule, each match overwriting the result,
so the LAST matching rule wins: a UA containing an Excel token yields
"Microsoft Excel" regardless of Word or Office matches; otherwise a Word
token yields "Microsoft Word" even when the Office pattern also matched;
only otherwise does a "Microsoft Office <variant>" match survive. -/
theorem client_app_last_match (ua : String) :
    (parse_user_agent ua).client_app =
      (if containsCI ("Excel".data) ua.data then "Microsoft Excel"
       else if containsCI ("Word".data) ua.data then "Microsoft Word"
       else match searchOffice ua.data with
         | some g => "Microsoft Office " ++ g
         | none => "") := by
  by_cases h0 : ua = ""
  · subst h0; decide
  · rw [← searchTokenVer_isSome, ← searchTokenVer_isSome]
    unfold parse_user_agent
    rw [if_neg h0]
    cases hE : searchTokenVer ("Excel".data) ua.data with
    | some og => simp [hE]
    | none =>
      cases hW : searchTokenVer ("Word".data) ua.data with
      | some og => simp [hE, hW]
      | none =>
        cases hO : searchOffice ua.data with
        | some g => simp [hE, hW, hO]
        | none => simp [hE, hW, hO]

/-! ## C5: sortedness and bounds of the dashboard rankings -/

theorem mem_insertDesc {p x : String × Nat} {l : List (String × Nat)}
    (h : x ∈ insertDesc p l) : x = p ∨ x ∈ l := by
  induction l with
  | nil =>
    unfold insertDesc at h
    simp at h
    exact Or.inl h
  | cons q qs ih =>
    unfold insertDesc at h
    by_cases hle : p.2 ≤ q.2
    · rw [if_pos hle] at h
      rcases List.mem_cons.mp h with h1 | h1
      · exact Or.inr (by simp [h1])
      · rcases ih h1 with h2 | h2
        · exact Or.inl h2
        · exact Or.inr (List.mem_cons_of_mem _ h2)
    · rw [if_neg hle] at h
      rcases List.mem_cons.mp h with h1 | h1
      · exact Or.inl h1
      · exact Or.inr h1

theorem pairwise_insertDesc (p : String × Nat) (l : List (String × Nat))
    (h : l.Pairwise (fun a b => b.2 ≤ a.2)) :
    (insertDesc p l).Pairwise (fun a b => b.2 ≤ a.2) := by
  induction l with
  | nil => simp [insertDesc]
  | cons q qs ih =>
    rw [List.pairwise_cons] at h
    unfold insertDesc
    by_cases hle : p.2 ≤ q.2
    · rw [if_pos hle, List.pairwise_cons]
      refine ⟨?_, ih h.2⟩
      intro x hx
      rcases mem_insertDesc hx with h1 | h1
      · rw [h1]; exact hle
      · exact h.1 x h1
    · rw [if_neg hle, List.pairwise_cons]
      have hqp : q.2 ≤ p.2 := Nat.le_of_lt (Nat.lt_of_not_le hle)
      refine ⟨?_, List.pairwise_cons.mpr h⟩
      intro x hx
      rcases List.mem_cons.mp hx with h1 | h1
      · rw [h1]; exact hqp
      · exact Nat.le_trans (h.1 x h1) hqp

theorem sortDesc_pairwise (l : List (String × Nat)) :
    (sortDesc l).Pairwise (fun a b => b.2 ≤ a.2) := by
  induction l with
  | nil => simp [sortDesc]
  | cons p ps ih => exact pairwise_insertDesc p _ ih

theorem mem_sortDesc {x : String × Nat} {l : List (String × Nat)}
    (h : x ∈ sortDesc l) : x ∈ l := by
  induction l with
  | nil => simp [sortDesc] at h
  | cons p ps ih =>
    unfold sortDesc at h
    rcases mem_insertDesc h with h1 | h1
    · simp [h1]
    · exact List.mem_cons_of_mem _ (ih h1)

theorem mem_foldl_dedup (l : List String) (k : String) :
    ∀ acc : List String,
      k ∈ l.foldl (fun acc x => if x ∈ acc then acc else acc ++ [x]) acc →
      k ∈ acc ∨ k ∈ l := by
  induction l with
  | nil => intro acc h; exact Or.inl h
  | cons x t ih =>
    intro acc h
    rw [List.foldl_cons] at h
    rcases ih _ h with h1 | h1
    · by_cases hx : x ∈ acc
      · rw [if_pos hx] at h1
        exact Or.inl h1
      · rw [if_neg hx] at h1
        rcases List.mem_append.mp h1 with h2 | h2
        · exact Or.inl h2
        · simp at h2
          subst h2
          exact Or.inr (List.mem_cons_self ..)
    · exact Or.inr (List.mem_cons_of_mem _ h1)

theorem mem_distinctKeys {k : String} {l : List String}
    (h : k ∈ distinctKeys l) : k ∈ l := by
  rcases mem_foldl_dedup l k [] h with h1 | h1
  · simp at h1
  · exact h1

theorem groupCounts_key {p : String × Nat} {l : List String}
    (h : p ∈ groupCounts l) : p.1 ∈ l := by
  obtain ⟨k, hk, he⟩ := List.mem_map.mp h
  rw [← he]
  exact mem_distinctKeys hk

theorem take_len_le {α : Type} (n : Nat) (l : List α) : (l.take n).length ≤ n := by
  rw [List.length_take]
  exact min_le_left _ _

theorem take_sortDesc_pairwise (n : Nat) (l : List (String × Nat)) :
    ((sortDesc l).take n).Pairwise (fun a b => b.2 ≤ a.2) :=
  List.Pairwise.sublist (List.take_sublist n _) (sortDesc_pairwise l)

theorem take_sortDesc_group_filter (n : Nat) (xs : List String)
    {p : String × Nat}
    (hp : p ∈ (sortDesc (groupCounts (xs.filter (fun c => c ≠ "")))).take n) :
    p.1 ≠ "" := by
  have h2 := mem_sortDesc (List.take_subset _ _ hp)
  have h3 := groupCounts_key h2
  have h4 := (List.mem_filter.mp h3).2
  simpa using h4

/-- C5 (amended): the grouped-count queries by endpoint, country and
client-application return at most 10 groups, the ISP query returns at most
5 groups (the source slices it at five, not ten), all four are in
descending count order, and the country, client and ISP rankings exclude
the empty-string group. -/
theorem topn_aggregations (db : DB) :
    (events_by_endpoint db).length ≤ 10 ∧
    (events_by_country db).length ≤ 10 ∧
    (events_by_client db).length ≤ 10 ∧
    (top_isps db).length ≤ 5 ∧
    (events_by_endpoint db).Pairwise (fun a b => b.2 ≤ a.2) ∧
    (events_by_country db).Pairwise (fun a b => b.2 ≤ a.2) ∧
    (events_by_client db).Pairwise (fun a b => b.2 ≤ a.2) ∧
    (top_isps db).Pairwise (fun a b => b.2 ≤ a.2) ∧
    (∀ p ∈ events_by_country db, p.1 ≠ "") ∧
    (∀ p ∈ events_by_client db, p.1 ≠ "") ∧
    (∀ p ∈ top_isps db, p.1 ≠ "") :=
  ⟨take_len_le .., take_len_le .., take_len_le .., take_len_le ..,
   take_sortDesc_pairwise .., take_sortDesc_pairwise ..,
   take_sortDesc_pairwise .., take_sortDesc_pairwise ..,
   fun _ hp => take_sortDesc_group_filter _ _ hp,
   fun _ hp => take_sortDesc_group_filter _ _ hp,
   fun _ hp => take_sortDesc_group_filter _ _ hp⟩

/-- A log row that only carries an ISP value. -/
def mkIspLog (n : Nat) (i : String) : AccessLog :=
  ⟨n, none, "", none, i, "", "", "", "", "", "", "", "", "", "",
   "/e", "GET", [], [], false⟩

/-- A store whose six log rows carry six distinct non-empty ISPs. -/
def ispDb : DB :=
  ⟨[], [mkIspLog 0 "AT and T", mkIspLog 1 "Verizon", mkIspLog 2 "Comcast",
        mkIspLog 3 "Orange", mkIspLog 4 "Telekom", mkIspLog 5 "Vodafone"],
   0, 6⟩

/-- C5 counterexample: with six distinct non-empty ISP groups present, the
ISP ranking returns only five of them — its default cutoff is 5, not the
claimed N=10 (a top-10 query would return all six). -/
theorem top_isps_five_cex :
    (top_isps ispDb).length = 5 ∧
    (distinctKeys ((ispDb.logs.map (fun e => e.isp)).filter
      (fun c => c ≠ ""))).length = 6 := by
  decide

/-- Witness for C5 (amended) at the six-ISP store. -/
theorem topn_aggregations_witness :
    (events_by_endpoint ispDb).length ≤ 10 ∧
    (events_by_country ispDb).length ≤ 10 ∧
    (events_by_client ispDb).length ≤ 10 ∧
    (top_isps ispDb).length ≤ 5 ∧
    (events_by_endpoint ispDb).Pairwise (fun a b => b.2 ≤ a.2) ∧
    (events_by_country ispDb).Pairwise (fun a b => b.2 ≤ a.2) ∧
    (events_by_client ispDb).Pairwise (fun a b => b.2 ≤ a.2) ∧
    (top_isps ispDb).Pairwise (fun a b => b.2 ≤ a.2) ∧
    (∀ p ∈ events_by_country ispDb, p.1 ≠ "") ∧
    (∀ p ∈ events_by_client ispDb, p.1 ≠ "") ∧
    (∀ p ∈ top_isps ispDb, p.1 ≠ "") :=
  topn_aggregations ispDb

end Tracker
